import Mathlib

/-!
Shallow embedding of the OAuth token lifecycle manager and resilient API-fetch
wrapper of src/src/oura_client.py (functions refresh_access_token,
make_api_request, get_recent_sleep_hrv, update_github_secret), together with
theorems settling the specification claims about them.

Modelling conventions:
- The process environment (os.getenv / os.environ) and the scripted HTTP
  responses are gathered in a World record that each operation threads
  explicitly; mutation of os.environ becomes a functional record update.
- Each operation returns (result, final world, event trace).  The trace
  records every outbound network interaction: a POST to the OAuth token
  endpoint, a GET to a data endpoint with its bearer token, and the
  secret-store pushes performed by update_github_secret.
- Python exceptions become an Except value; each PyError constructor
  corresponds to one raise site in the source (the three RuntimeError sites
  of refresh_access_token are distinguished by constructor because the
  specification taxonomy distinguishes them; their message strings are built
  exactly as the source builds them, except that the rendering of a JSON
  body inside an f-string is abstracted by jsonStr, which no claim inspects).
- requests.Response.raise_for_status raises HTTPError exactly for status
  codes 400-599; this is isHttpError below.
- JSON bodies are modelled as association lists of string fields; a body
  that is not valid JSON is jsonBody = none (response.json() then raises,
  modelled by jsonDecodeError).
- Python dates are identified with their day count from 1970-01-01
  (proleptic Gregorian); datetime.date arithmetic with timedelta is integer
  arithmetic on that count, and str(date) is fmtDate.  Python dates are
  restricted to years 1 to 9999; arithmetic leaving that range raises
  OverflowError, modelled by the range check in get_recent_sleep_hrv.
-/

namespace OuraHrv

/-- An HTTP response as seen by the client: status code, the parsed JSON
body when the body is valid JSON (an association list of string fields,
`none` otherwise), and the raw body text. -/
structure Resp where
  status : Nat
  jsonBody : Option (List (String × String))
  text : String
deriving Repr, DecidableEq

/-- Python exceptions raised by the client.  Each constructor corresponds to
one raise site in src/src/oura_client.py.  In the vocabulary of the spec:
valueError is ConfigurationError, invalidRefreshTokenError is the
RuntimeError raised on token-endpoint status 400, invalidClientCredentialsError
the one raised on 401, tokenEndpointError the one raised on any other
HTTPError status, and httpError (raised by response.raise_for_status in
make_api_request) is ApiRequestError. -/
inductive PyError where
  | valueError (msg : String)
  | invalidRefreshTokenError (msg : String)
  | invalidClientCredentialsError (msg : String)
  | tokenEndpointError (status : Nat) (msg : String)
  | httpError (status : Nat) (text : String)
  | keyError (key : String)
  | jsonDecodeError
  | connectionError
  | overflowError
deriving Repr, DecidableEq

/-- Outbound network interactions, in program order.  tokenPost is the POST
to the OAuth token endpoint (one per invocation of refresh_access_token that
passes credential validation); dataGet is a GET to a data endpoint carrying
its bearer token; secretAttempt marks entry into update_github_secret for a
named secret and secretPush its successful completion. -/
inductive Event where
  | tokenPost (refresh_token client_id client_secret : String)
  | dataGet (url bearer : String)
  | secretAttempt (name : String)
  | secretPush (name value : String)
deriving Repr, DecidableEq

/-- The process environment and the scripted behaviour of the network.
tokenResponses and dataResponses are consumed head-first by POSTs to the
token endpoint and GETs to data endpoints respectively; an exhausted list
models a network-level failure (connectionError).  secretStoreFails scripts
whether update_github_secret raises. -/
@[ext]
structure World where
  envRefreshToken : Option String
  envClientId : Option String
  envClientSecret : Option String
  envAccessToken : Option String
  envRepoSecretsToken : Option String
  envGithubRepository : Option String
  tokenResponses : List Resp
  dataResponses : List Resp
  secretStoreFails : Bool
deriving Repr, DecidableEq

/-- os.getenv with default: a missing variable reads as the empty string
where the source writes os.getenv(name, d) or tests truthiness, so both an
unset variable and one set to the empty string are Python-falsy. -/
def getenvD (o : Option String) : String := o.getD ""

/-- Dictionary lookup on a JSON object: tokens[k] when present. -/
def lookupKey (k : String) : List (String × String) → Option String
  | [] => none
  | (k', v) :: rest => if k' = k then some v else lookupKey k rest

/-- Split a character list at every occurrence of a separator character. -/
def splitOnChar (c : Char) : List Char → List (List Char)
  | [] => [[]]
  | x :: xs =>
    if x = c then [] :: splitOnChar c xs
    else
      match splitOnChar c xs with
      | [] => [[x]]
      | g :: gs => (x :: g) :: gs

/-- Python str.split with a one-character separator:
"owner/repo".split of the slash gives two parts. -/
def pySplit (s : String) (sep : Char) : List String :=
  (splitOnChar sep s.data).map String.mk

/-- Abstract rendering of a JSON object inside an f-string (the exact
Python dict rendering is not inspected by any claim). -/
def jsonStr (j : List (String × String)) : String :=
  String.intercalate ", " (j.map (fun p => p.1 ++ ": " ++ p.2))

/-- Lines 73-78 of oura_client.py: detailed error information extracted from
a token-endpoint error response (the JSON body when it parses, the raw text
otherwise). -/
def errorDetails (resp : Resp) : String :=
  match resp.jsonBody with
  | some j => "\nOura API Error: " ++ jsonStr j
  | none => "\nResponse Text: " ++ resp.text

/-- requests.Response.raise_for_status raises HTTPError exactly for client
and server error status codes, 400-599. -/
def isHttpError (status : Nat) : Bool := 400 ≤ status && status < 600

/-- The message of the RuntimeError raised at lines 82-90 on token-endpoint
status 400, built operand for operand as the source f-string builds it. -/
def msg400 (error_details refresh_token : String) : String :=
  "❌ OAuth token refresh failed with 400 Bad Request" ++ error_details ++ "\n\n" ++
  "This usually means your refresh token is invalid or expired.\n" ++
  "To fix this, you need to re-authorize the application:\n\n" ++
  "1. Run the OAuth flow locally to get a new refresh token\n" ++
  "2. Update the OURA_REFRESH_TOKEN secret in GitHub\n" ++
  "3. See project documentation for detailed OAuth setup steps\n\n" ++
  "Current refresh token (first 10 chars): " ++ refresh_token.take 10 ++ "..."

/-- The message of the RuntimeError raised at lines 92-98 on token-endpoint
status 401. -/
def msg401 (error_details : String) : String :=
  "❌ OAuth token refresh failed with 401 Unauthorized" ++ error_details ++ "\n\n" ++
  "This usually means your client credentials are incorrect.\n" ++
  "Verify these GitHub Secrets are correct:\n" ++
  "- OURA_CLIENT_ID\n" ++
  "- OURA_CLIENT_SECRET"

/-- The message of the RuntimeError raised at lines 100-102 on any other
token-endpoint HTTPError status. -/
def msgOther (status : Nat) (error_details : String) : String :=
  "❌ OAuth token refresh failed with status " ++ toString status ++ error_details

/-- Model of update_github_secret (lines 9-42).  The function performs a
public-key GET, sealed-box encryption and a PUT of the encrypted secret;
none of that internal structure is claim-relevant, so the whole call either
raises (when the world scripts the secret store as failing) or completes and
is recorded as a push.  Entry into the function is recorded as an attempt in
both cases. -/
def update_github_secret (fails : Bool) (secret_name secret_value : String) :
    Except Unit Unit × List Event :=
  if fails then (.error (), [.secretAttempt secret_name])
  else (.ok (), [.secretAttempt secret_name, .secretPush secret_name secret_value])

/-- Lines 113-131 of refresh_access_token: push the rotated tokens to the
GitHub secret store.  Only runs when REPO_SECRETS_TOKEN is set; everything
inside the try block (reading GITHUB_REPOSITORY, the owner/repo unpacking of
split, and both update_github_secret calls) has its exceptions caught and
logged, so this helper never raises and never modifies the world. -/
def pushSecrets (w : World) (new_access_token new_refresh_token : String) :
    List Event :=
  let github_token := getenvD w.envRepoSecretsToken
  if github_token = "" then []
  else
    let github_repository := getenvD w.envGithubRepository
    if github_repository = "" then []
    else if (pySplit github_repository '/').length = 2 then
      match update_github_secret w.secretStoreFails "OURA_ACCESS_TOKEN" new_access_token with
      | (.error _, ev1) => ev1
      | (.ok _, ev1) =>
        match update_github_secret w.secretStoreFails "OURA_REFRESH_TOKEN" new_refresh_token with
        | (.error _, ev2) => ev1 ++ ev2
        | (.ok _, ev2) => ev1 ++ ev2
    else []

/-- Shallow embedding of refresh_access_token (lines 44-134).  Validates the
three required credentials (raising ValueError before any network call when
one is Python-falsy), POSTs to the token endpoint, maps HTTPError statuses
to the three RuntimeError sites, and on success stores the new access token
in the environment, stores a rotated refresh token when one was returned,
pushes rotated tokens to the secret store, and returns the new access
token. -/
def refresh_access_token (w : World) :
    Except PyError String × World × List Event :=
  let refresh_token := getenvD w.envRefreshToken
  let client_id := getenvD w.envClientId
  let client_secret := getenvD w.envClientSecret
  if refresh_token = "" then
    (.error (.valueError "OURA_REFRESH_TOKEN is missing from environment variables"), w, [])
  else if client_id = "" then
    (.error (.valueError "OURA_CLIENT_ID is missing from environment variables"), w, [])
  else if client_secret = "" then
    (.error (.valueError "OURA_CLIENT_SECRET is missing from environment variables"), w, [])
  else
    match w.tokenResponses with
    | [] => (.error .connectionError, w, [.tokenPost refresh_token client_id client_secret])
    | resp :: rest =>
      let w1 := { w with tokenResponses := rest }
      let ev0 := [Event.tokenPost refresh_token client_id client_secret]
      if isHttpError resp.status then
        let details := errorDetails resp
        if resp.status = 400 then
          (.error (.invalidRefreshTokenError (msg400 details refresh_token)), w1, ev0)
        else if resp.status = 401 then
          (.error (.invalidClientCredentialsError (msg401 details)), w1, ev0)
        else
          (.error (.tokenEndpointError resp.status (msgOther resp.status details)), w1, ev0)
      else
        match resp.jsonBody with
        | none => (.error .jsonDecodeError, w1, ev0)
        | some tokens =>
          match lookupKey "access_token" tokens with
          | none => (.error (.keyError "access_token"), w1, ev0)
          | some new_access_token =>
            let w2 := { w1 with envAccessToken := some new_access_token }
            match lookupKey "refresh_token" tokens with
            | none => (.ok new_access_token, w2, ev0)
            | some new_refresh_token =>
              let w3 := { w2 with envRefreshToken := some new_refresh_token }
              (.ok new_access_token, w3,
                ev0 ++ pushSecrets w3 new_access_token new_refresh_token)

/-- Base URL of the data API (line 138). -/
def apiBase : String := "https://api.ouraring.com/v2/"

/-- Lines 160-161 of make_api_request: response.raise_for_status() followed
by return response.json(). -/
def finishRequest (resp : Resp) (w : World) (ev : List Event) :
    Except PyError (List (String × String)) × World × List Event :=
  if isHttpError resp.status then (.error (.httpError resp.status resp.text), w, ev)
  else
    match resp.jsonBody with
    | none => (.error .jsonDecodeError, w, ev)
    | some j => (.ok j, w, ev)

/-- Lines 150-161 of make_api_request: issue the GET with the bearer token
in hand, and on a 401 with auto_refresh call refresh_access_token once,
update the environment and the bearer header, and reissue the GET exactly
once before raise_for_status on the final response. -/
def issueRequest (url access_token : String) (auto_refresh : Bool)
    (w : World) (ev : List Event) :
    Except PyError (List (String × String)) × World × List Event :=
  match w.dataResponses with
  | [] => (.error .connectionError, w, ev ++ [.dataGet url access_token])
  | resp :: rest =>
    let w1 := { w with dataResponses := rest }
    let ev1 := ev ++ [Event.dataGet url access_token]
    if resp.status = 401 && auto_refresh then
      match refresh_access_token w1 with
      | (.error e, w2, ev2) => (.error e, w2, ev1 ++ ev2)
      | (.ok new_token, w2, ev2) =>
        let w3 := { w2 with envAccessToken := some new_token }
        match w3.dataResponses with
        | [] => (.error .connectionError, w3, ev1 ++ ev2 ++ [.dataGet url new_token])
        | resp2 :: rest2 =>
          let w4 := { w3 with dataResponses := rest2 }
          finishRequest resp2 w4 (ev1 ++ ev2 ++ [Event.dataGet url new_token])
    else
      finishRequest resp w1 ev1

/-- Shallow embedding of make_api_request (lines 136-161).  Reads the access
token from the environment (empty string when missing), refreshes eagerly
when it is missing and auto_refresh is set, then issues the GET via
issueRequest. -/
def make_api_request (w : World) (endpoint : String) (auto_refresh : Bool) :
    Except PyError (List (String × String)) × World × List Event :=
  let url := apiBase ++ endpoint
  let access_token := getenvD w.envAccessToken
  if access_token = "" && auto_refresh then
    match refresh_access_token w with
    | (.error e, w1, ev1) => (.error e, w1, ev1)
    | (.ok tok, w1, ev1) =>
      let w2 := { w1 with envAccessToken := some tok }
      issueRequest url tok auto_refresh w2 ev1
  else
    issueRequest url access_token auto_refresh w []

/-- Civil calendar date (year, month, day) of a day count from 1970-01-01,
proleptic Gregorian, following the standard era-based conversion used by
civil-calendar libraries.  Models the calendar arithmetic of Python
datetime.date for the representable range.  All divisions act on
non-negative operands for every in-range day count, so Euclidean division
agrees with the truncating division of the reference algorithm. -/
def civilFromDays (z : Int) : Int × Int × Int :=
  let z' := z + 719468
  let era : Int := (if 0 ≤ z' then z' else z' - 146096) / 146097
  let doe : Int := z' - era * 146097
  let yoe : Int := (doe - doe / 1460 + doe / 36524 - doe / 146096) / 365
  let y : Int := yoe + era * 400
  let doy : Int := doe - (365 * yoe + yoe / 4 - yoe / 100)
  let mp : Int := (5 * doy + 2) / 153
  let d : Int := doy - (153 * mp + 2) / 5 + 1
  let m : Int := if mp < 10 then mp + 3 else mp - 9
  (if m ≤ 2 then y + 1 else y, m, d)

/-- Day count from 1970-01-01 of a civil calendar date, inverse direction of
civilFromDays. -/
def daysFromCivil (y m d : Int) : Int :=
  let y' := if m ≤ 2 then y - 1 else y
  let era : Int := (if 0 ≤ y' then y' else y' - 399) / 400
  let yoe : Int := y' - era * 400
  let mp : Int := if 2 < m then m - 3 else m + 9
  let doy : Int := (153 * mp + 2) / 5 + d - 1
  let doe : Int := yoe * 365 + yoe / 4 - yoe / 100 + doy
  era * 146097 + doe - 719468

/-- Smallest day count representable as a Python date (0001-01-01). -/
def minDate : Int := daysFromCivil 1 1 1

/-- Largest day count representable as a Python date (9999-12-31). -/
def maxDate : Int := daysFromCivil 9999 12 31

/-- Zero-pad a month or day number to two digits, as str(date) does. -/
def pad2 (n : Int) : String :=
  if n < 10 then "0" ++ toString n else toString n

/-- Zero-pad a year number to four digits, as str(date) does. -/
def pad4 (n : Int) : String :=
  if n < 10 then "000" ++ toString n
  else if n < 100 then "00" ++ toString n
  else if n < 1000 then "0" ++ toString n
  else toString n

/-- str(date): ISO YYYY-MM-DD rendering of a day count. -/
def fmtDate (z : Int) : String :=
  match civilFromDays z with
  | (y, m, d) => pad4 y ++ "-" ++ pad2 m ++ "-" ++ pad2 d

/-- Line 171 of oura_client.py: the sleep-collection endpoint with its
date-window query parameters. -/
def sleepEndpoint (start_date end_date : Int) : String :=
  "usercollection/sleep?start_date=" ++ fmtDate start_date ++
  "&end_date=" ++ fmtDate end_date

/-- Shallow embedding of get_recent_sleep_hrv (lines 163-172).  today is the
day count of datetime.now().date(); end_date is today plus one day, and
start_date is end_date minus the requested number of days.  timedelta
arithmetic whose result leaves the representable date range raises
OverflowError; otherwise the request is delegated to make_api_request with
auto_refresh left at its default True. -/
def get_recent_sleep_hrv (today days : Int) (w : World) :
    Except PyError (List (String × String)) × World × List Event :=
  let end_date := today + 1
  let start_date := end_date - days
  if end_date < minDate || maxDate < end_date ||
     start_date < minDate || maxDate < start_date then
    (.error .overflowError, w, [])
  else
    make_api_request w (sleepEndpoint start_date end_date) true

/-- Trace bookkeeping: number of events satisfying a predicate. -/
def countP (p : Event → Bool) (l : List Event) : Nat := (l.filter p).length

/-- Recogniser for token-endpoint POST events (refresher invocations). -/
def isTokenPost : Event → Bool
  | .tokenPost _ _ _ => true
  | _ => false

/-- Recogniser for data-endpoint GET events. -/
def isDataGet : Event → Bool
  | .dataGet _ _ => true
  | _ => false

/-- Recogniser for entries into update_github_secret. -/
def isSecretAttempt : Event → Bool
  | .secretAttempt _ => true
  | _ => false

/-- Recogniser for completed secret-store pushes. -/
def isSecretPush : Event → Bool
  | .secretPush _ _ => true
  | _ => false

/-! Concrete inputs used to instantiate the theorems below. -/

/-- A fully configured environment with a cached access token, no scripted
responses and no secret-store integration. -/
def baseWorld : World where
  envRefreshToken := some "REFRESHTOKEN-ONE"
  envClientId := some "CID"
  envClientSecret := some "CSEC"
  envAccessToken := some "TOK"
  envRepoSecretsToken := none
  envGithubRepository := none
  tokenResponses := []
  dataResponses := []
  secretStoreFails := false

/-- Token endpoint 200 with a new access token and no rotation. -/
def tokOk : Resp := { status := 200, jsonBody := some [("access_token", "NEWTOK")], text := "" }

/-- Token endpoint 200 rotating both tokens. -/
def tokOkRot : Resp :=
  { status := 200,
    jsonBody := some [("access_token", "NEWTOK"), ("refresh_token", "NEWREFRESH")],
    text := "" }

/-- Token endpoint 400 with a non-JSON body. -/
def tok400 : Resp := { status := 400, jsonBody := none, text := "invalid_grant" }

/-- Token endpoint 201 (a non-200 success status) with a new access token. -/
def tok201 : Resp := { status := 201, jsonBody := some [("access_token", "NEWTOK")], text := "" }

/-- Data endpoint 401. -/
def resp401 : Resp := { status := 401, jsonBody := none, text := "unauthorized" }

/-- Data endpoint 500. -/
def resp500 : Resp := { status := 500, jsonBody := none, text := "server error" }

/-- Data endpoint 200 with a payload. -/
def resp200 : Resp := { status := 200, jsonBody := some [("data", "nights")], text := "" }

/-- Data endpoint 204 (a non-200 success status) with an empty JSON body. -/
def resp204 : Resp := { status := 204, jsonBody := some [], text := "" }

/-- Data endpoint 204 with a non-empty JSON body. -/
def resp204b : Resp := { status := 204, jsonBody := some [("a", "b")], text := "" }

/-- Day count of 2025-10-24 (the fixed fake today of the spec example). -/
def today20251024 : Int := 20385

/-- Environment scripted with a token-endpoint 400. -/
def wTok400 : World := { baseWorld with tokenResponses := [tok400] }

/-- Environment with refresh token starting AAAAAAAAAA, scripted 400. -/
def wTokenA : World :=
  { baseWorld with envRefreshToken := some "AAAAAAAAAAZZ", tokenResponses := [tok400] }

/-- Environment with refresh token starting BBBBBBBBBB, scripted 400. -/
def wTokenB : World :=
  { baseWorld with envRefreshToken := some "BBBBBBBBBBZZ", tokenResponses := [tok400] }

/-- Environment scripted with a token-endpoint 201 carrying a new token. -/
def wTok201 : World := { baseWorld with tokenResponses := [tok201] }

/-- Environment with a cached token and one data-endpoint 200. -/
def wSleep : World := { baseWorld with dataResponses := [resp200] }

/-- Environment scripted with a data-endpoint 401 then 500, and a
successful token refresh in between. -/
def wRetryFail : World :=
  { baseWorld with tokenResponses := [tokOk], dataResponses := [resp401, resp500] }

/-- Environment scripted with a data-endpoint 401 then 204, and a
successful token refresh in between. -/
def wRetry204 : World :=
  { baseWorld with tokenResponses := [tokOk], dataResponses := [resp401, resp204] }

/-- Environment with no cached access token, a successful refresh and a
data-endpoint 200. -/
def wEager : World :=
  { baseWorld with
      envAccessToken := none
      tokenResponses := [tokOk]
      dataResponses := [resp200] }

/-- Environment with no cached access token and a data-endpoint 401
(used with auto_refresh disabled). -/
def wNoAuto401 : World :=
  { baseWorld with envAccessToken := none, dataResponses := [resp401] }

/-- Environment with no cached access token and a data-endpoint 204 with a
JSON body (used with auto_refresh disabled). -/
def wNoAuto204 : World :=
  { baseWorld with envAccessToken := none, dataResponses := [resp204b] }

/-- Environment with secret-store integration configured and a failing
secret store, scripted with a rotating token-endpoint success. -/
def wSecretFail : World :=
  { baseWorld with
      tokenResponses := [tokOkRot]
      envRepoSecretsToken := some "GHTOK"
      envGithubRepository := some "owner/repo"
      secretStoreFails := true }

/-! Helper lemmas shared by the claim theorems. -/

theorem countP_append (p : Event → Bool) (l1 l2 : List Event) :
    countP p (l1 ++ l2) = countP p l1 + countP p l2 := by
  simp [countP]

theorem str_data_append (a b : String) : (a ++ b).data = a.data ++ b.data := by
  cases a; cases b; rfl

theorem str_eq_of_data {a b : String} (h : a.data = b.data) : a = b := by
  cases a; cases b; exact congrArg String.mk h

theorem str_append_assoc (a b c : String) : a ++ b ++ c = a ++ (b ++ c) :=
  str_eq_of_data (by simp [str_data_append])

theorem pushSecrets_counts (w : World) (a r : String) :
    countP isTokenPost (pushSecrets w a r) = 0 ∧
    countP isDataGet (pushSecrets w a r) = 0 := by
  unfold pushSecrets update_github_secret
  cases w.secretStoreFails <;> (try simp) <;> (repeat' split) <;>
    simp [countP, isTokenPost, isDataGet]

theorem finishRequest_trace (r : Resp) (w : World) (ev : List Event) :
    (finishRequest r w ev).2.2 = ev := by
  unfold finishRequest
  (repeat' split) <;> rfl

theorem finishRequest_error (r : Resp) (w : World) (ev : List Event)
    (h : isHttpError r.status = true) :
    (finishRequest r w ev).1 = .error (.httpError r.status r.text) := by
  unfold finishRequest
  simp [h]

theorem finishRequest_ok (r : Resp) (w : World) (ev : List Event)
    (j : List (String × String))
    (h : isHttpError r.status = false) (hj : r.jsonBody = some j) :
    (finishRequest r w ev).1 = .ok j := by
  unfold finishRequest
  simp [h, hj]

/-- C3: whenever at least one of the refresh token, client id or client
secret is missing from the environment (Python-falsy: unset or empty),
refresh_access_token fails with the ValueError playing the role of
ConfigurationError, leaves the world untouched and emits no network event
at all; and when all three are present, the absence of the access token
alone never produces that ValueError. -/
theorem C3_missing_credentials (w : World) :
    ((getenvD w.envRefreshToken = "" ∨ getenvD w.envClientId = "" ∨
        getenvD w.envClientSecret = "") →
      ∃ m, refresh_access_token w = (.error (.valueError m), w, [])) ∧
    (getenvD w.envRefreshToken ≠ "" → getenvD w.envClientId ≠ "" →
      getenvD w.envClientSecret ≠ "" → w.envAccessToken = none →
      ∀ m, (refresh_access_token w).1 ≠ .error (.valueError m)) := by
  constructor
  · intro h
    by_cases h1 : getenvD w.envRefreshToken = ""
    · exact ⟨"OURA_REFRESH_TOKEN is missing from environment variables",
        by simp [refresh_access_token, h1]⟩
    · by_cases h2 : getenvD w.envClientId = ""
      · exact ⟨"OURA_CLIENT_ID is missing from environment variables",
          by simp [refresh_access_token, h1, h2]⟩
      · have h3 : getenvD w.envClientSecret = "" := by tauto
        exact ⟨"OURA_CLIENT_SECRET is missing from environment variables",
          by simp [refresh_access_token, h1, h2, h3]⟩
  · intro h1 h2 h3 _ m
    unfold refresh_access_token
    simp only [h1, h2, h3, if_neg, if_false]
    cases htr : w.tokenResponses with
    | nil => simp [htr]
    | cons t rest =>
      simp only [htr]
      (repeat' split) <;> simp

/-- Witness for C3_missing_credentials at two concrete environments: one
with the refresh token unset, one with every required credential present
but no access token. -/
theorem C3_missing_credentials_witness :
    (∃ m, refresh_access_token { baseWorld with envRefreshToken := none } =
      (.error (.valueError m), { baseWorld with envRefreshToken := none }, [])) ∧
    (∀ m, (refresh_access_token { baseWorld with envAccessToken := none }).1 ≠
      .error (.valueError m)) :=
  ⟨(C3_missing_credentials { baseWorld with envRefreshToken := none }).1 (Or.inl rfl),
   (C3_missing_credentials { baseWorld with envAccessToken := none }).2
     (by decide) (by decide) (by decide) rfl⟩

/-- C5: a token-endpoint success whose JSON body carries an access_token but
no refresh_token field makes refresh_access_token update only the access
token in the environment — the stored refresh token is unchanged, the
response is consumed, and the trace is exactly the one POST: no
secret-store attempt and no push. -/
theorem C5_no_rotation (w : World) (t : Resp) (rest : List Resp)
    (tj : List (String × String)) (tok : String)
    (h1 : getenvD w.envRefreshToken ≠ "") (h2 : getenvD w.envClientId ≠ "")
    (h3 : getenvD w.envClientSecret ≠ "")
    (htr : w.tokenResponses = t :: rest)
    (hok : isHttpError t.status = false)
    (hjson : t.jsonBody = some tj)
    (hat : lookupKey "access_token" tj = some tok)
    (hrot : lookupKey "refresh_token" tj = none) :
    refresh_access_token w =
      (.ok tok,
       { w with tokenResponses := rest, envAccessToken := some tok },
       [Event.tokenPost (getenvD w.envRefreshToken) (getenvD w.envClientId)
          (getenvD w.envClientSecret)]) ∧
    (refresh_access_token w).2.1.envRefreshToken = w.envRefreshToken ∧
    countP isSecretAttempt (refresh_access_token w).2.2 = 0 ∧
    countP isSecretPush (refresh_access_token w).2.2 = 0 := by
  have hmain : refresh_access_token w =
      (.ok tok,
       { w with tokenResponses := rest, envAccessToken := some tok },
       [Event.tokenPost (getenvD w.envRefreshToken) (getenvD w.envClientId)
          (getenvD w.envClientSecret)]) := by
    unfold refresh_access_token
    simp [h1, h2, h3, htr, hok, hjson, hat, hrot]
  exact ⟨hmain, by rw [hmain], by rw [hmain]; rfl, by rw [hmain]; rfl⟩

/-- Witness for C5_no_rotation: a 200 with only a new access token updates
the access token, keeps the stored refresh token, and pushes nothing. -/
theorem C5_no_rotation_witness :
    refresh_access_token { baseWorld with tokenResponses := [tokOk] } =
      (.ok "NEWTOK",
       { baseWorld with tokenResponses := [], envAccessToken := some "NEWTOK" },
       [Event.tokenPost "REFRESHTOKEN-ONE" "CID" "CSEC"]) ∧
    (refresh_access_token { baseWorld with tokenResponses := [tokOk] }).2.1.envRefreshToken =
      some "REFRESHTOKEN-ONE" ∧
    countP isSecretAttempt
      (refresh_access_token { baseWorld with tokenResponses := [tokOk] }).2.2 = 0 ∧
    countP isSecretPush
      (refresh_access_token { baseWorld with tokenResponses := [tokOk] }).2.2 = 0 :=
  C5_no_rotation { baseWorld with tokenResponses := [tokOk] } tokOk [] _ "NEWTOK"
    (by decide) (by decide) (by decide) rfl (by decide) rfl (by decide) (by decide)

/-- C7: when a rotated refresh token was received and the secret-store push
is attempted but the secret store raises, the exception is swallowed:
refresh_access_token still returns the new access token, the rotated tokens
are stored in the environment, and the trace shows the one failed attempt
and no completed push. -/
theorem C7_push_failure_swallowed (w : World) (t : Resp) (rest : List Resp)
    (tj : List (String × String)) (tok rt' : String)
    (h1 : getenvD w.envRefreshToken ≠ "") (h2 : getenvD w.envClientId ≠ "")
    (h3 : getenvD w.envClientSecret ≠ "")
    (htr : w.tokenResponses = t :: rest)
    (hok : isHttpError t.status = false)
    (hjson : t.jsonBody = some tj)
    (hat : lookupKey "access_token" tj = some tok)
    (hrot : lookupKey "refresh_token" tj = some rt')
    (hgh : getenvD w.envRepoSecretsToken ≠ "")
    (hrepo : getenvD w.envGithubRepository ≠ "")
    (hsplit : (pySplit (getenvD w.envGithubRepository) '/').length = 2)
    (hfail : w.secretStoreFails = true) :
    (refresh_access_token w).1 = .ok tok ∧
    (refresh_access_token w).2.1.envAccessToken = some tok ∧
    (refresh_access_token w).2.1.envRefreshToken = some rt' ∧
    countP isSecretAttempt (refresh_access_token w).2.2 = 1 ∧
    countP isSecretPush (refresh_access_token w).2.2 = 0 := by
  have hmain : refresh_access_token w =
      (.ok tok,
       { w with tokenResponses := rest, envAccessToken := some tok,
                envRefreshToken := some rt' },
       [Event.tokenPost (getenvD w.envRefreshToken) (getenvD w.envClientId)
          (getenvD w.envClientSecret),
        Event.secretAttempt "OURA_ACCESS_TOKEN"]) := by
    unfold refresh_access_token pushSecrets update_github_secret
    simp [h1, h2, h3, htr, hok, hjson, hat, hrot, hgh, hrepo, hsplit, hfail]
  refine ⟨?_, ?_, ?_, ?_, ?_⟩ <;> rw [hmain] <;> rfl

/-- Witness for C7_push_failure_swallowed: a rotating 200 with a failing
secret store still yields the new access token. -/
theorem C7_push_failure_swallowed_witness :
    (refresh_access_token wSecretFail).1 = .ok "NEWTOK" ∧
    (refresh_access_token wSecretFail).2.1.envAccessToken = some "NEWTOK" ∧
    (refresh_access_token wSecretFail).2.1.envRefreshToken = some "NEWREFRESH" ∧
    countP isSecretAttempt (refresh_access_token wSecretFail).2.2 = 1 ∧
    countP isSecretPush (refresh_access_token wSecretFail).2.2 = 0 :=
  C7_push_failure_swallowed wSecretFail tokOkRot [] _ "NEWTOK" "NEWREFRESH"
    (by decide) (by decide) (by decide) rfl (by decide) rfl (by decide) (by decide)
    (by decide) (by decide) (by decide) rfl

/-- C4 (amended): for a token-endpoint response with an error status
(400-599, the statuses on which raise_for_status raises), the error kind is
determined by the status: 400 raises the invalid-refresh-token error whose
message carries the re-authorization guidance, 401 raises the distinct
invalid-client-credentials error, and any other error status raises the
token-endpoint error carrying the status code and the response detail. -/
theorem C4_token_endpoint_errors (w : World) (t : Resp) (rest : List Resp)
    (h1 : getenvD w.envRefreshToken ≠ "") (h2 : getenvD w.envClientId ≠ "")
    (h3 : getenvD w.envClientSecret ≠ "")
    (htr : w.tokenResponses = t :: rest)
    (herr : isHttpError t.status = true) :
    (t.status = 400 →
      (refresh_access_token w).1 =
        .error (.invalidRefreshTokenError
          (msg400 (errorDetails t) (getenvD w.envRefreshToken))) ∧
      ∃ a b, msg400 (errorDetails t) (getenvD w.envRefreshToken) =
        a ++ "To fix this, you need to re-authorize the application:\n\n" ++ b) ∧
    (t.status = 401 →
      (refresh_access_token w).1 =
        .error (.invalidClientCredentialsError (msg401 (errorDetails t)))) ∧
    (t.status ≠ 400 → t.status ≠ 401 →
      (refresh_access_token w).1 =
        .error (.tokenEndpointError t.status (msgOther t.status (errorDetails t))) ∧
      ∃ a, msgOther t.status (errorDetails t) = a ++ errorDetails t) ∧
    (∀ m m', PyError.invalidRefreshTokenError m ≠
      PyError.invalidClientCredentialsError m') := by
  refine ⟨?_, ?_, ?_, ?_⟩
  · intro h400
    refine ⟨?_, ?_⟩
    · unfold refresh_access_token
      simp [h1, h2, h3, htr, herr, h400, isHttpError]
    · refine ⟨"❌ OAuth token refresh failed with 400 Bad Request" ++ errorDetails t ++
        "\n\n" ++ "This usually means your refresh token is invalid or expired.\n",
        "1. Run the OAuth flow locally to get a new refresh token\n" ++
        "2. Update the OURA_REFRESH_TOKEN secret in GitHub\n" ++
        "3. See project documentation for detailed OAuth setup steps\n\n" ++
        "Current refresh token (first 10 chars): " ++
        (getenvD w.envRefreshToken).take 10 ++ "...", ?_⟩
      simp only [msg400, str_append_assoc]
  · intro h401
    unfold refresh_access_token
    simp [h1, h2, h3, htr, herr, h401, isHttpError]
  · intro hne400 hne401
    refine ⟨?_, ?_⟩
    · unfold refresh_access_token
      simp [h1, h2, h3, htr, herr, hne400, hne401]
    · refine ⟨"❌ OAuth token refresh failed with status " ++ toString t.status, ?_⟩
      simp only [msgOther, str_append_assoc]
  · intro m m' h
    exact PyError.noConfusion h

/-- Witness for C4_token_endpoint_errors at the concrete 400 response. -/
theorem C4_token_endpoint_errors_witness :
    (tok400.status = 400 →
      (refresh_access_token wTok400).1 =
        .error (.invalidRefreshTokenError
          (msg400 (errorDetails tok400) (getenvD wTok400.envRefreshToken))) ∧
      ∃ a b, msg400 (errorDetails tok400) (getenvD wTok400.envRefreshToken) =
        a ++ "To fix this, you need to re-authorize the application:\n\n" ++ b) ∧
    (tok400.status = 401 →
      (refresh_access_token wTok400).1 =
        .error (.invalidClientCredentialsError (msg401 (errorDetails tok400)))) ∧
    (tok400.status ≠ 400 → tok400.status ≠ 401 →
      (refresh_access_token wTok400).1 =
        .error (.tokenEndpointError tok400.status
          (msgOther tok400.status (errorDetails tok400))) ∧
      ∃ a, msgOther tok400.status (errorDetails tok400) = a ++ errorDetails tok400) ∧
    (∀ m m', PyError.invalidRefreshTokenError m ≠
      PyError.invalidClientCredentialsError m') :=
  C4_token_endpoint_errors wTok400 tok400 []
    (by decide) (by decide) (by decide) rfl (by decide)

/-- Counterexample to C4 as stated: a non-200 status that is not an error
status (201 with a token body) makes refresh_access_token succeed instead
of failing with any error. -/
theorem C4_counterexample :
    tok201.status ≠ 200 ∧ (refresh_access_token wTok201).1 = .ok "NEWTOK" :=
  ⟨by decide, by rfl⟩

/-- String append is cancellative around a middle operand. -/
theorem append_inj_mid (a b x y : String) (h : a ++ x ++ b = a ++ y ++ b) :
    x = y := by
  have hd := congrArg String.data h
  simp only [str_data_append] at hd
  exact str_eq_of_data (List.append_cancel_left (List.append_cancel_right hd))

/-- The 400-message splits as a fixed prefix (depending only on the
response detail), the first ten characters of the refresh token, and a
fixed suffix. -/
theorem msg400_decomp (d r : String) :
    msg400 d r =
      ("❌ OAuth token refresh failed with 400 Bad Request" ++ d ++ "\n\n" ++
       "This usually means your refresh token is invalid or expired.\n" ++
       "To fix this, you need to re-authorize the application:\n\n" ++
       "1. Run the OAuth flow locally to get a new refresh token\n" ++
       "2. Update the OURA_REFRESH_TOKEN secret in GitHub\n" ++
       "3. See project documentation for detailed OAuth setup steps\n\n" ++
       "Current refresh token (first 10 chars): ") ++ r.take 10 ++ "..." := by
  simp only [msg400, str_append_assoc]

/-- Two 400-messages built from the same response detail agree only when
the first ten characters of the two refresh tokens agree. -/
theorem msg400_take_inj (d r1 r2 : String) (h : msg400 d r1 = msg400 d r2) :
    r1.take 10 = r2.take 10 := by
  rw [msg400_decomp, msg400_decomp] at h
  exact append_inj_mid _ _ _ _ h

/-- C10: on a token-endpoint 400 the raised message embeds the first ten
characters of the configured refresh token, and two runs identical except
for refresh tokens differing within those ten characters raise observably
different messages. -/
theorem C10_token_prefix_in_message (w1 w2 : World) (t : Resp)
    (rest1 rest2 : List Resp)
    (h11 : getenvD w1.envRefreshToken ≠ "") (h12 : getenvD w1.envClientId ≠ "")
    (h13 : getenvD w1.envClientSecret ≠ "")
    (h21 : getenvD w2.envRefreshToken ≠ "") (h22 : getenvD w2.envClientId ≠ "")
    (h23 : getenvD w2.envClientSecret ≠ "")
    (htr1 : w1.tokenResponses = t :: rest1) (htr2 : w2.tokenResponses = t :: rest2)
    (h400 : t.status = 400) :
    (refresh_access_token w1).1 =
      .error (.invalidRefreshTokenError
        (msg400 (errorDetails t) (getenvD w1.envRefreshToken))) ∧
    (refresh_access_token w2).1 =
      .error (.invalidRefreshTokenError
        (msg400 (errorDetails t) (getenvD w2.envRefreshToken))) ∧
    (∃ a b, msg400 (errorDetails t) (getenvD w1.envRefreshToken) =
      a ++ (getenvD w1.envRefreshToken).take 10 ++ b) ∧
    ((getenvD w1.envRefreshToken).take 10 ≠ (getenvD w2.envRefreshToken).take 10 →
      msg400 (errorDetails t) (getenvD w1.envRefreshToken) ≠
        msg400 (errorDetails t) (getenvD w2.envRefreshToken)) := by
  refine ⟨?_, ?_, ?_, ?_⟩
  · unfold refresh_access_token
    simp [h11, h12, h13, htr1, h400, isHttpError]
  · unfold refresh_access_token
    simp [h21, h22, h23, htr2, h400, isHttpError]
  · refine ⟨"❌ OAuth token refresh failed with 400 Bad Request" ++ errorDetails t ++
      "\n\n" ++ "This usually means your refresh token is invalid or expired.\n" ++
      "To fix this, you need to re-authorize the application:\n\n" ++
      "1. Run the OAuth flow locally to get a new refresh token\n" ++
      "2. Update the OURA_REFRESH_TOKEN secret in GitHub\n" ++
      "3. See project documentation for detailed OAuth setup steps\n\n" ++
      "Current refresh token (first 10 chars): ", "...", ?_⟩
    simp only [msg400, str_append_assoc]
  · intro hne heq
    exact hne (msg400_take_inj _ _ _ heq)

/-- Witness for C10_token_prefix_in_message: refresh tokens AAAAAAAAAAZZ
and BBBBBBBBBBZZ differ within the first ten characters and produce
different 400-messages. -/
theorem C10_token_prefix_in_message_witness :
    (refresh_access_token wTokenA).1 =
      .error (.invalidRefreshTokenError
        (msg400 (errorDetails tok400) (getenvD wTokenA.envRefreshToken))) ∧
    (refresh_access_token wTokenB).1 =
      .error (.invalidRefreshTokenError
        (msg400 (errorDetails tok400) (getenvD wTokenB.envRefreshToken))) ∧
    (∃ a b, msg400 (errorDetails tok400) (getenvD wTokenA.envRefreshToken) =
      a ++ (getenvD wTokenA.envRefreshToken).take 10 ++ b) ∧
    ((getenvD wTokenA.envRefreshToken).take 10 ≠ (getenvD wTokenB.envRefreshToken).take 10 →
      msg400 (errorDetails tok400) (getenvD wTokenA.envRefreshToken) ≠
        msg400 (errorDetails tok400) (getenvD wTokenB.envRefreshToken)) :=
  C10_token_prefix_in_message wTokenA wTokenB tok400 [] []
    (by decide) (by decide) (by decide) (by decide) (by decide) (by decide)
    rfl rfl (by decide)

/-- A successful refresh: one POST to the token endpoint followed only by
secret-store events (no further POST, no GET), the new access token stored
in the environment, and the data-endpoint script untouched. -/
theorem refresh_ok (w : World) (t : Resp) (rest : List Resp)
    (tj : List (String × String)) (tok : String)
    (h1 : getenvD w.envRefreshToken ≠ "") (h2 : getenvD w.envClientId ≠ "")
    (h3 : getenvD w.envClientSecret ≠ "")
    (htr : w.tokenResponses = t :: rest) (hok : isHttpError t.status = false)
    (hjson : t.jsonBody = some tj)
    (hat : lookupKey "access_token" tj = some tok) :
    ∃ w' pushEv,
      refresh_access_token w =
        (.ok tok, w',
         Event.tokenPost (getenvD w.envRefreshToken) (getenvD w.envClientId)
           (getenvD w.envClientSecret) :: pushEv) ∧
      countP isTokenPost pushEv = 0 ∧ countP isDataGet pushEv = 0 ∧
      w'.envAccessToken = some tok ∧ w'.dataResponses = w.dataResponses := by
  cases hrot : lookupKey "refresh_token" tj with
  | none =>
    refine ⟨{ w with tokenResponses := rest, envAccessToken := some tok }, [],
      ?_, rfl, rfl, rfl, rfl⟩
    unfold refresh_access_token
    simp [h1, h2, h3, htr, hok, hjson, hat, hrot]
  | some rt' =>
    refine ⟨{ w with tokenResponses := rest, envAccessToken := some tok, envRefreshToken := some rt' }, pushSecrets { w with tokenResponses := rest, envAccessToken := some tok, envRefreshToken := some rt' } tok rt', ?_, (pushSecrets_counts _ _ _).1, (pushSecrets_counts _ _ _).2, rfl, rfl⟩
    unfold refresh_access_token
    simp [h1, h2, h3, htr, hok, hjson, hat, hrot]

/-- Every run of issueRequest records the initial GET, with the supplied
bearer token, as its first request event after the inherited prefix. -/
theorem issueRequest_first_get (url tok : String) (ar : Bool) (w : World)
    (ev : List Event) :
    ∃ restT,
      (issueRequest url tok ar w ev).2.2 = ev ++ Event.dataGet url tok :: restT := by
  unfold issueRequest
  cases hd : w.dataResponses with
  | nil => exact ⟨[], rfl⟩
  | cons r rest =>
    cases h4 : (decide (r.status = 401) && ar) with
    | false => exact ⟨[], by simp [h4, finishRequest_trace]⟩
    | true =>
      rcases href : refresh_access_token { w with dataResponses := rest } with ⟨res, w2, ev2⟩
      cases res with
      | error e => exact ⟨ev2, by simp [h4, href, List.append_assoc]⟩
      | ok newTok =>
        cases hd2 : w2.dataResponses with
        | nil =>
          exact ⟨ev2 ++ [.dataGet url newTok],
            by simp [h4, href, hd2, List.append_assoc]⟩
        | cons r2 rest2 =>
          exact ⟨ev2 ++ [.dataGet url newTok],
            by simp [h4, href, hd2, finishRequest_trace, List.append_assoc]⟩

/-- issueRequest in the refresh-and-retry case: a first GET answered 401,
one successful refresh, and the reissued GET consuming the next scripted
response, with raise_for_status applied to that second response. -/
theorem issueRequest_401_refresh (url tok : String) (w : World) (ev : List Event)
    (r1 r2 : Resp) (rest : List Resp) (w' : World) (newTok : String)
    (rev : List Event)
    (hdata : w.dataResponses = r1 :: r2 :: rest)
    (h401 : r1.status = 401)
    (href : refresh_access_token { w with dataResponses := r2 :: rest } =
      (.ok newTok, w', rev))
    (hdr : w'.dataResponses = r2 :: rest) :
    issueRequest url tok true w ev =
      finishRequest r2
        { w' with envAccessToken := some newTok, dataResponses := rest }
        ((ev ++ [Event.dataGet url tok]) ++ rev ++ [Event.dataGet url newTok]) := by
  unfold issueRequest
  rw [hdata]
  simp only [h401, decide_True, Bool.true_and, if_true, href, hdr]

/-- C2 (amended): with a cached access token, when the first GET is
answered 401 the refresher is invoked exactly once and the GET is reissued
exactly once with the refreshed bearer token — the whole trace is first
GET, one token POST (with its secret-store events), second GET, so one
refresher invocation and two GETs in total — and when the second response
has an error status (400-599, the statuses on which raise_for_status
raises) the call fails with the request error carrying that status and
body, with no further refresh or retry. -/
theorem C2_single_refresh_retry (w : World) (endpoint : String)
    (r1 r2 : Resp) (rest : List Resp) (t : Resp) (trest : List Resp)
    (tj : List (String × String)) (newTok : String)
    (htok : getenvD w.envAccessToken ≠ "")
    (hdata : w.dataResponses = r1 :: r2 :: rest)
    (h401 : r1.status = 401)
    (h1 : getenvD w.envRefreshToken ≠ "") (h2 : getenvD w.envClientId ≠ "")
    (h3 : getenvD w.envClientSecret ≠ "")
    (htr : w.tokenResponses = t :: trest)
    (hok : isHttpError t.status = false) (hjson : t.jsonBody = some tj)
    (hat : lookupKey "access_token" tj = some newTok) :
    ∃ pushEv,
      (make_api_request w endpoint true).2.2 =
        Event.dataGet (apiBase ++ endpoint) (getenvD w.envAccessToken) ::
          ((Event.tokenPost (getenvD w.envRefreshToken) (getenvD w.envClientId)
              (getenvD w.envClientSecret) :: pushEv) ++
            [Event.dataGet (apiBase ++ endpoint) newTok]) ∧
      countP isTokenPost pushEv = 0 ∧ countP isDataGet pushEv = 0 ∧
      countP isTokenPost (make_api_request w endpoint true).2.2 = 1 ∧
      countP isDataGet (make_api_request w endpoint true).2.2 = 2 ∧
      (isHttpError r2.status = true →
        (make_api_request w endpoint true).1 =
          .error (.httpError r2.status r2.text)) := by
  obtain ⟨w', pushEv, heq, hcp, hcg, hacc, hdr⟩ :=
    refresh_ok { w with dataResponses := r2 :: rest } t trest tj newTok
      h1 h2 h3 htr hok hjson hat
  have hmar : make_api_request w endpoint true =
      issueRequest (apiBase ++ endpoint) (getenvD w.envAccessToken) true w [] := by
    unfold make_api_request
    simp [htok]
  have hred := issueRequest_401_refresh (apiBase ++ endpoint)
    (getenvD w.envAccessToken) w [] r1 r2 rest w' newTok _ hdata h401 heq hdr
  have hcp' : (pushEv.filter isTokenPost).length = 0 := hcp
  have hcg' : (pushEv.filter isDataGet).length = 0 := hcg
  rw [hmar, hred]
  refine ⟨pushEv, ?_, hcp, hcg, ?_, ?_, ?_⟩
  · rw [finishRequest_trace]
    simp
  · rw [finishRequest_trace]
    simp [countP, List.filter_append, isTokenPost, hcp']
  · rw [finishRequest_trace]
    simp [countP, List.filter_append, isDataGet, hcg']
  · intro herr2
    exact finishRequest_error r2 _ _ herr2

/-- Witness for C2_single_refresh_retry: 401 then 500 with a successful
refresh gives one POST, two GETs and the 500 request error. -/
theorem C2_single_refresh_retry_witness :
    ∃ pushEv,
      (make_api_request wRetryFail "usercollection/sleep" true).2.2 =
        Event.dataGet (apiBase ++ "usercollection/sleep") (getenvD wRetryFail.envAccessToken) ::
          ((Event.tokenPost (getenvD wRetryFail.envRefreshToken)
              (getenvD wRetryFail.envClientId)
              (getenvD wRetryFail.envClientSecret) :: pushEv) ++
            [Event.dataGet (apiBase ++ "usercollection/sleep") "NEWTOK"]) ∧
      countP isTokenPost pushEv = 0 ∧ countP isDataGet pushEv = 0 ∧
      countP isTokenPost (make_api_request wRetryFail "usercollection/sleep" true).2.2 = 1 ∧
      countP isDataGet (make_api_request wRetryFail "usercollection/sleep" true).2.2 = 2 ∧
      (isHttpError resp500.status = true →
        (make_api_request wRetryFail "usercollection/sleep" true).1 =
          .error (.httpError resp500.status resp500.text)) :=
  C2_single_refresh_retry wRetryFail "usercollection/sleep" resp401 resp500 []
    tokOk [] _ "NEWTOK" (by decide) rfl (by decide) (by decide) (by decide)
    (by decide) rfl (by decide) rfl rfl

/-- Counterexample to C2 as stated: a second response that is non-200 but
not an error status (204 with a JSON body) makes get() succeed after the
single refresh instead of failing with the request error. -/
theorem C2_counterexample :
    resp204.status ≠ 200 ∧
    (make_api_request wRetry204 "usercollection/sleep" true).1 = .ok [] ∧
    countP isTokenPost (make_api_request wRetry204 "usercollection/sleep" true).2.2 = 1 :=
  ⟨by decide, by rfl, by rfl⟩

/-- C8: when no access token is cached and the refresh succeeds, the
refresher runs before any data-endpoint GET — the trace is the token POST
and its secret-store events (no GET, no second POST among them) followed by
the first GET, which carries the newly obtained access token as bearer. -/
theorem C8_eager_refresh (w : World) (endpoint : String) (t : Resp)
    (trest : List Resp) (tj : List (String × String)) (newTok : String)
    (habs : getenvD w.envAccessToken = "")
    (h1 : getenvD w.envRefreshToken ≠ "") (h2 : getenvD w.envClientId ≠ "")
    (h3 : getenvD w.envClientSecret ≠ "")
    (htr : w.tokenResponses = t :: trest)
    (hok : isHttpError t.status = false) (hjson : t.jsonBody = some tj)
    (hat : lookupKey "access_token" tj = some newTok) :
    ∃ pushEv restT,
      (make_api_request w endpoint true).2.2 =
        (Event.tokenPost (getenvD w.envRefreshToken) (getenvD w.envClientId)
            (getenvD w.envClientSecret) :: pushEv) ++
          Event.dataGet (apiBase ++ endpoint) newTok :: restT ∧
      countP isTokenPost pushEv = 0 ∧ countP isDataGet pushEv = 0 := by
  obtain ⟨w', pushEv, heq, hcp, hcg, hacc, hdr⟩ :=
    refresh_ok w t trest tj newTok h1 h2 h3 htr hok hjson hat
  have hmar : make_api_request w endpoint true =
      issueRequest (apiBase ++ endpoint) newTok true
        { w' with envAccessToken := some newTok }
        (Event.tokenPost (getenvD w.envRefreshToken) (getenvD w.envClientId)
          (getenvD w.envClientSecret) :: pushEv) := by
    unfold make_api_request
    simp [habs, heq]
  obtain ⟨restT, htrace⟩ := issueRequest_first_get (apiBase ++ endpoint) newTok
    true { w' with envAccessToken := some newTok }
    (Event.tokenPost (getenvD w.envRefreshToken) (getenvD w.envClientId)
      (getenvD w.envClientSecret) :: pushEv)
  exact ⟨pushEv, restT, by rw [hmar, htrace], hcp, hcg⟩

/-- Witness for C8_eager_refresh: no cached token, successful refresh, then
the GET carries the fresh token. -/
theorem C8_eager_refresh_witness :
    ∃ pushEv restT,
      (make_api_request wEager "usercollection/sleep" true).2.2 =
        (Event.tokenPost (getenvD wEager.envRefreshToken)
            (getenvD wEager.envClientId)
            (getenvD wEager.envClientSecret) :: pushEv) ++
          Event.dataGet (apiBase ++ "usercollection/sleep") "NEWTOK" :: restT ∧
      countP isTokenPost pushEv = 0 ∧ countP isDataGet pushEv = 0 :=
  C8_eager_refresh wEager "usercollection/sleep" tokOk [] _ "NEWTOK"
    rfl (by decide) (by decide) (by decide) rfl (by decide) rfl rfl

/-- C9 (amended): with auto_refresh disabled the refresher is never
invoked: the trace is exactly one GET whose bearer is the cached token
(the empty string when the token is absent), and a response with an error
status (400-599) — including 401 — raises the request error directly with
no refresh attempt and no retry; non-200 success statuses do not raise. -/
theorem C9_no_auto_refresh (w : World) (endpoint : String) (r : Resp)
    (rest : List Resp) (hdata : w.dataResponses = r :: rest) :
    (make_api_request w endpoint false).2.2 =
      [Event.dataGet (apiBase ++ endpoint) (getenvD w.envAccessToken)] ∧
    countP isTokenPost (make_api_request w endpoint false).2.2 = 0 ∧
    countP isDataGet (make_api_request w endpoint false).2.2 = 1 ∧
    (isHttpError r.status = true →
      (make_api_request w endpoint false).1 =
        .error (.httpError r.status r.text)) := by
  have hmar : make_api_request w endpoint false =
      finishRequest r { w with dataResponses := rest }
        [Event.dataGet (apiBase ++ endpoint) (getenvD w.envAccessToken)] := by
    unfold make_api_request issueRequest
    rw [hdata]
    simp
  refine ⟨?_, ?_, ?_, ?_⟩
  · rw [hmar, finishRequest_trace]
  · rw [hmar, finishRequest_trace]
    simp [countP, isTokenPost]
  · rw [hmar, finishRequest_trace]
    simp [countP, isDataGet]
  · intro herr
    rw [hmar]
    exact finishRequest_error r _ _ herr

/-- Witness for C9_no_auto_refresh: no cached token and a 401 response
with auto_refresh disabled — one GET with an empty bearer, no POST, and
the request error raised directly. -/
theorem C9_no_auto_refresh_witness :
    (make_api_request wNoAuto401 "usercollection/sleep" false).2.2 =
      [Event.dataGet (apiBase ++ "usercollection/sleep") ""] ∧
    countP isTokenPost (make_api_request wNoAuto401 "usercollection/sleep" false).2.2 = 0 ∧
    countP isDataGet (make_api_request wNoAuto401 "usercollection/sleep" false).2.2 = 1 ∧
    (isHttpError resp401.status = true →
      (make_api_request wNoAuto401 "usercollection/sleep" false).1 =
        .error (.httpError resp401.status resp401.text)) :=
  C9_no_auto_refresh wNoAuto401 "usercollection/sleep" resp401 [] rfl

/-- Counterexample to C9 as stated: with auto_refresh disabled a non-200
status that is not an error status (204 with a JSON body) does not raise —
the call returns the parsed body. -/
theorem C9_counterexample :
    resp204b.status ≠ 200 ∧
    (make_api_request wNoAuto204 "usercollection/sleep" false).1 = .ok [("a", "b")] ∧
    countP isTokenPost (make_api_request wNoAuto204 "usercollection/sleep" false).2.2 = 0 :=
  ⟨by decide, by rfl, by rfl⟩

/-- C1 (amended): for every non-negative days and fixed in-range today, the
sleep request window is start_date = today + 1 - days and end_date =
today + 1 (one day more than the claimed today - days start), rendered
YYYY-MM-DD: the first network event of get_recent_sleep_hrv is the GET on
the sleep-collection endpoint carrying exactly those dates. -/
theorem C1_request_window (today days : Int) (w : World)
    (hdays : 0 ≤ days)
    (hstart : minDate ≤ today + 1 - days) (hend : today + 1 ≤ maxDate)
    (htok : getenvD w.envAccessToken ≠ "") :
    ((get_recent_sleep_hrv today days w).2.2).head? =
      some (Event.dataGet
        (apiBase ++ sleepEndpoint (today + 1 - days) (today + 1))
        (getenvD w.envAccessToken)) := by
  have hb1 : ¬ (today + 1 < minDate) := by omega
  have hb2 : ¬ (maxDate < today + 1) := by omega
  have hb3 : ¬ (today + 1 - days < minDate) := by omega
  have hb4 : ¬ (maxDate < today + 1 - days) := by omega
  have hmar : make_api_request w (sleepEndpoint (today + 1 - days) (today + 1)) true =
      issueRequest (apiBase ++ sleepEndpoint (today + 1 - days) (today + 1))
        (getenvD w.envAccessToken) true w [] := by
    unfold make_api_request
    simp [htok]
  obtain ⟨restT, htrace⟩ := issueRequest_first_get
    (apiBase ++ sleepEndpoint (today + 1 - days) (today + 1))
    (getenvD w.envAccessToken) true w []
  unfold get_recent_sleep_hrv
  simp [hb1, hb2, hb3, hb4]
  rw [hmar, htrace]
  rfl

/-- Witness for C1_request_window at the spec example: days = 3 and today =
2025-10-24 give start_date 2025-10-22 (not 2025-10-21) and end_date
2025-10-25. -/
theorem C1_request_window_witness :
    sleepEndpoint (today20251024 + 1 - 3) (today20251024 + 1) =
      "usercollection/sleep?start_date=2025-10-22&end_date=2025-10-25" ∧
    civilFromDays today20251024 = (2025, 10, 24) ∧
    ((get_recent_sleep_hrv today20251024 3 wSleep).2.2).head? =
      some (Event.dataGet
        (apiBase ++ sleepEndpoint (today20251024 + 1 - 3) (today20251024 + 1))
        (getenvD wSleep.envAccessToken)) :=
  ⟨by decide, by decide,
   C1_request_window today20251024 3 wSleep
     (by decide) (by decide) (by decide) (by decide)⟩

/-- Counterexample to C1 as stated: at days = 3 and today = 2025-10-24 the
issued request carries start_date 2025-10-22, not the claimed 2025-10-21. -/
theorem C1_counterexample :
    civilFromDays today20251024 = (2025, 10, 24) ∧
    (get_recent_sleep_hrv today20251024 3 wSleep).2.2 =
      [Event.dataGet
        (apiBase ++ "usercollection/sleep?start_date=2025-10-22&end_date=2025-10-25")
        "TOK"] ∧
    sleepEndpoint (today20251024 + 1 - 3) (today20251024 + 1) ≠
      "usercollection/sleep?start_date=2025-10-21&end_date=2025-10-25" :=
  ⟨by decide, by rfl, by decide⟩

/-- C6 (amended): get_recent_sleep_hrv performs no validation of days at
all — for any integer days, negative included (bounded only by Python's
representable date range), the request is issued and a 200 response's
payload is returned unmodified. -/
theorem C6_no_days_validation (today days : Int) (w : World) (r : Resp)
    (rest : List Resp) (j : List (String × String))
    (hb1 : minDate ≤ today + 1) (hb2 : today + 1 ≤ maxDate)
    (hb3 : minDate ≤ today + 1 - days) (hb4 : today + 1 - days ≤ maxDate)
    (htok : getenvD w.envAccessToken ≠ "")
    (hdata : w.dataResponses = r :: rest)
    (hok : isHttpError r.status = false)
    (hjson : r.jsonBody = some j) :
    (get_recent_sleep_hrv today days w).1 = .ok j := by
  have h401 : ¬ (r.status = 401) := by
    intro h
    rw [h] at hok
    simp [isHttpError] at hok
  have nb1 : ¬ (today + 1 < minDate) := by omega
  have nb2 : ¬ (maxDate < today + 1) := by omega
  have nb3 : ¬ (today + 1 - days < minDate) := by omega
  have nb4 : ¬ (maxDate < today + 1 - days) := by omega
  have hmar : make_api_request w (sleepEndpoint (today + 1 - days) (today + 1)) true =
      finishRequest r { w with dataResponses := rest }
        [Event.dataGet (apiBase ++ sleepEndpoint (today + 1 - days) (today + 1))
          (getenvD w.envAccessToken)] := by
    unfold make_api_request issueRequest
    rw [hdata]
    simp [htok, h401]
  unfold get_recent_sleep_hrv
  simp [nb1, nb2, nb3, nb4]
  rw [hmar]
  exact finishRequest_ok r _ _ j hok hjson

/-- Witness for C6_no_days_validation at the negative input days = -1: no
ConfigurationError, the raw payload comes back. -/
theorem C6_no_days_validation_witness :
    ((-1 : Int) < 0) ∧
    (get_recent_sleep_hrv today20251024 (-1) wSleep).1 = .ok [("data", "nights")] :=
  ⟨by decide,
   C6_no_days_validation today20251024 (-1) wSleep resp200 [] _
     (by decide) (by decide) (by decide) (by decide) (by decide) rfl
     (by decide) rfl⟩

/-- Counterexample to C6 as stated: at days = -1 no ConfigurationError is
raised — a request is issued (with an inverted window reaching into the
future) and the payload is returned. -/
theorem C6_counterexample :
    ((-1 : Int) < 0) ∧
    (∀ m, (get_recent_sleep_hrv today20251024 (-1) wSleep).1 ≠
      .error (.valueError m)) ∧
    (get_recent_sleep_hrv today20251024 (-1) wSleep).2.2 =
      [Event.dataGet
        (apiBase ++ "usercollection/sleep?start_date=2025-10-26&end_date=2025-10-25")
        "TOK"] := by
  refine ⟨by decide, ?_, by rfl⟩
  intro m h
  rw [show (get_recent_sleep_hrv today20251024 (-1) wSleep).1 =
    Except.ok [("data", "nights")] from rfl] at h
  exact Except.noConfusion h

end OuraHrv
